import Mathlib

/-!
Verification of the `unifiprotect` Home Assistant custom component
(`custom_components/unifiprotect/camera.py` and `sensor.py`) against its
natural-language specification.  The component is thin glue code: service
handlers forward platform service-call arguments to SDK setter methods,
entity properties mirror SDK device fields.  We embed the handlers as
functions that return the list of SDK setter calls they perform together
with their outcome (success, enum-constructor error, or a propagated SDK
exception), and embed the attribute-reading code over a small reflection
of Python objects.
-/

namespace UnifiProtect

/-! ## SDK enums

Modelled from the spec: the enums `RecordingMode`, `IRLEDMode`, `VideoMode`
and `DoorbellMessageType` are owned by the external `pyunifiprotect` SDK
(`pyunifiprotect.data.types`), which is not part of this repository; only
their member values matter here.  A Python string-valued enum constructor
`E(s)` returns the member whose value is `s` and raises `ValueError`
otherwise; we model it as `E.ofString : String → Option E`.
-/

/-- Modelled from the spec: the SDK enum `RecordingMode`
(members `ALWAYS`, `DETECTIONS`, `NEVER`; the code references
`RecordingMode.DETECTIONS` and `RecordingMode.NEVER` directly). -/
inductive RecordingMode
  | ALWAYS
  | DETECTIONS
  | NEVER
  deriving DecidableEq, Repr

def RecordingMode.value : RecordingMode → String
  | .ALWAYS => "always"
  | .DETECTIONS => "detections"
  | .NEVER => "never"

def RecordingMode.ofString (s : String) : Option RecordingMode :=
  if s = "always" then some .ALWAYS
  else if s = "detections" then some .DETECTIONS
  else if s = "never" then some .NEVER
  else none

/-- Modelled from the spec: the SDK enum `IRLEDMode`. -/
inductive IRLEDMode
  | AUTO
  | ON
  | AUTO_NO_LED
  | OFF
  deriving DecidableEq, Repr

def IRLEDMode.value : IRLEDMode → String
  | .AUTO => "auto"
  | .ON => "on"
  | .AUTO_NO_LED => "autoFilterOnly"
  | .OFF => "off"

def IRLEDMode.ofString (s : String) : Option IRLEDMode :=
  if s = "auto" then some .AUTO
  else if s = "on" then some .ON
  else if s = "autoFilterOnly" then some .AUTO_NO_LED
  else if s = "off" then some .OFF
  else none

/-- Modelled from the spec: the SDK enum `VideoMode`
(the code references `VideoMode.DEFAULT` and `VideoMode.HIGH_FPS`). -/
inductive VideoMode
  | DEFAULT
  | HIGH_FPS
  deriving DecidableEq, Repr

/-- Modelled from the spec: the SDK enum `DoorbellMessageType`
(the code references `DoorbellMessageType.CUSTOM_MESSAGE`). -/
inductive DoorbellMessageType
  | CUSTOM_MESSAGE
  | LEAVE_PACKAGE_AT_DOOR
  | DO_NOT_DISTURB
  deriving DecidableEq, Repr

/-! ## Python string helpers used by the handlers

`str.isnumeric()` is true for every character with a Unicode numeric type
(decimal digits of any script, but also superscripts and fractions), while
`int(s)` parses only decimal digits (category `Nd`) and raises `ValueError`
on the rest (e.g. the superscript two).  The Unicode character data lives
in the Python runtime, so the embedding is parametric in it.
-/

/-- Modelled from the spec: the Python runtime's Unicode character data, as
consulted by `str.isnumeric()` and `int()`.  `numeric c` holds when `c` has
a Unicode numeric type (decimal, digit or numeric); `decimalVal c` is the
value of a decimal digit (category `Nd`) and `none` otherwise.  Every
decimal digit is numeric, and the ASCII digits are decimal with their usual
values. -/
structure UnicodeData where
  numeric : Char → Bool
  decimalVal : Char → Option Nat
  decimal_numeric : ∀ c v, decimalVal c = some v → numeric c = true
  ascii_decimal : ∀ c : Char, c.isDigit = true → decimalVal c = some (c.toNat - 48)

/-- Python `str.isnumeric()`: true iff the string is non-empty and every
character has a Unicode numeric type. -/
def pyIsNumeric (u : UnicodeData) (s : String) : Bool :=
  !s.data.isEmpty && s.data.all u.numeric

/-- Python `int(s)` as invoked under an `isnumeric()` guard (so sign,
whitespace and underscore handling cannot arise): every character must be a
decimal digit of some script; `none` models the `ValueError` on a string
with a non-decimal numeric character. -/
def pyIntOfString (u : UnicodeData) (s : String) : Option Nat :=
  if s.data.isEmpty then none
  else s.data.foldlM (fun acc c => (u.decimalVal c).map (fun v => acc * 10 + v)) 0

/-- The ASCII fragment of the Unicode character data: one concrete
`UnicodeData` (used by the witnesses). -/
def asciiU : UnicodeData where
  numeric := Char.isDigit
  decimalVal := fun c => if c.isDigit then some (c.toNat - 48) else none
  decimal_numeric := by
    intro c v h
    by_cases hc : c.isDigit = true
    · exact hc
    · simp [hc] at h
  ascii_decimal := by
    intro c h
    simp [h]

/-! ## SDK setter calls and handler outcomes

Each camera service handler in `camera.py` performs SDK mutations through
`await self.device.<setter>(...)`.  We record every setter invocation as a
value of `SDKCall`.  Time: `utc_now()` is passed in as `now` (in seconds),
and `timedelta(minutes=n)` is `60 * n` seconds.
-/

inductive SDKCall
  | set_recording_mode (m : RecordingMode)
  | set_ir_led_model (m : IRLEDMode)
  | set_status_light (is_on : Bool)
  | set_hdr (is_on : Bool)
  | set_chime_duration (d : Int)
  | set_video_mode (m : VideoMode)
  | set_lcd_text (t : DoorbellMessageType) (msg : String) (reset_at : Option Int)
  | set_mic_volume (level : Int)
  | set_privacy (is_on : Bool) (mic_level : Int) (m : RecordingMode)
  | set_wdr_level (v : Int)
  | set_camera_zoom (p : Int)
  deriving DecidableEq, Repr

/-- A Python exception escaping a handler: either the `ValueError` raised by
an enum constructor on an invalid member value, or an exception raised by an
SDK setter (its identity kept abstract as a `Nat`). -/
inductive PyExc
  | valueError (enumName : String) (arg : String)
  | sdkError (e : Nat)
  deriving DecidableEq, Repr

/-- The behaviour of the SDK device object: each setter call either returns
normally or raises an SDK exception. -/
def DevBehavior : Type := SDKCall → Except Nat Unit

/-- Perform one SDK setter call: the call is recorded, and an exception
raised by the SDK propagates unchanged (wrapped as `PyExc.sdkError`). -/
def callSetter (dev : DevBehavior) (c : SDKCall) :
    List SDKCall × Except PyExc Unit :=
  ([c], match dev c with
        | .ok _ => .ok ()
        | .error e => .error (.sdkError e))

/-! ## The camera service handlers (`UnifiProtectCamera`, camera.py)

Each handler returns the list of SDK setter calls it performed and its
outcome.  An enum constructor is evaluated before the setter is awaited,
exactly as in the Python source.
-/

/-- `async_set_recording_mode` (camera.py lines 251-253):
`await self.device.set_recording_mode(RecordingMode(recording_mode))`. -/
def async_set_recording_mode (dev : DevBehavior) (recording_mode : String) :
    List SDKCall × Except PyExc Unit :=
  match RecordingMode.ofString recording_mode with
  | none => ([], .error (.valueError "RecordingMode" recording_mode))
  | some m => callSetter dev (.set_recording_mode m)

/-- `async_set_ir_mode` (camera.py lines 255-257):
`await self.device.set_ir_led_model(IRLEDMode(ir_mode))`. -/
def async_set_ir_mode (dev : DevBehavior) (ir_mode : String) :
    List SDKCall × Except PyExc Unit :=
  match IRLEDMode.ofString ir_mode with
  | none => ([], .error (.valueError "IRLEDMode" ir_mode))
  | some m => callSetter dev (.set_ir_led_model m)

/-- `async_set_status_light` (camera.py lines 259-261). -/
def async_set_status_light (dev : DevBehavior) (light_on : Bool) :
    List SDKCall × Except PyExc Unit :=
  callSetter dev (.set_status_light light_on)

/-- `async_set_hdr_mode` (camera.py lines 263-265). -/
def async_set_hdr_mode (dev : DevBehavior) (hdr_on : Bool) :
    List SDKCall × Except PyExc Unit :=
  callSetter dev (.set_hdr hdr_on)

/-- `async_set_doorbell_chime_duration` (camera.py lines 267-269). -/
def async_set_doorbell_chime_duration (dev : DevBehavior) (chime_duration : Int) :
    List SDKCall × Except PyExc Unit :=
  callSetter dev (.set_chime_duration chime_duration)

/-- `async_set_highfps_video_mode` (camera.py lines 271-275):
`set_video_mode(VideoMode.HIGH_FPS if high_fps_on else VideoMode.DEFAULT)`. -/
def async_set_highfps_video_mode (dev : DevBehavior) (high_fps_on : Bool) :
    List SDKCall × Except PyExc Unit :=
  callSetter dev (.set_video_mode (if high_fps_on then .HIGH_FPS else .DEFAULT))

/-- `async_set_doorbell_lcd_message` (camera.py lines 277-286):
`reset_at = utc_now() + timedelta(minutes=int(duration))` when
`duration.isnumeric()`, else `None`; then one `set_lcd_text` call.  When
`isnumeric()` holds but `int()` raises `ValueError` (a numeric but
non-decimal character, e.g. a superscript digit), the error escapes before
`set_lcd_text` is called. -/
def async_set_doorbell_lcd_message (u : UnicodeData) (dev : DevBehavior)
    (now : Int) (message : String) (duration : String) :
    List SDKCall × Except PyExc Unit :=
  if pyIsNumeric u duration then
    match pyIntOfString u duration with
    | none => ([], .error (.valueError "int" duration))
    | some k =>
      callSetter dev (.set_lcd_text .CUSTOM_MESSAGE message
        (some (now + 60 * (k : Int))))
  else
    callSetter dev (.set_lcd_text .CUSTOM_MESSAGE message none)

/-- `async_set_mic_volume` (camera.py lines 288-290). -/
def async_set_mic_volume (dev : DevBehavior) (level : Int) :
    List SDKCall × Except PyExc Unit :=
  callSetter dev (.set_mic_volume level)

/-- `async_set_privacy_mode` (camera.py lines 292-298):
`await self.device.set_privacy(privacy_mode, mic_level, RecordingMode(recording_mode))`. -/
def async_set_privacy_mode (dev : DevBehavior) (privacy_mode : Bool)
    (mic_level : Int) (recording_mode : String) :
    List SDKCall × Except PyExc Unit :=
  match RecordingMode.ofString recording_mode with
  | none => ([], .error (.valueError "RecordingMode" recording_mode))
  | some m => callSetter dev (.set_privacy privacy_mode mic_level m)

/-- `async_set_wdr_value` (camera.py lines 300-302). -/
def async_set_wdr_value (dev : DevBehavior) (value : Int) :
    List SDKCall × Except PyExc Unit :=
  callSetter dev (.set_wdr_level value)

/-- `async_set_zoom_position` (camera.py lines 304-306). -/
def async_set_zoom_position (dev : DevBehavior) (position : Int) :
    List SDKCall × Except PyExc Unit :=
  callSetter dev (.set_camera_zoom position)

/-! ## A reflection of Python objects for attribute reads (sensor.py)

`UnifiProtectSensor.native_value` walks a dot-separated attribute path with
`getattr` and unwraps an `Enum` result to its `.value`.  We reflect the SDK
device objects into a small Python-object type: leaves are ints, strings or
enum members, inner nodes are objects with named fields.
-/

inductive PyObj
  | vInt (n : Int)
  | vStr (s : String)
  | vEnum (v : String)
  | obj (fields : List (String × PyObj))

/-- Python `getattr(value, attr)`, `none` for `AttributeError`. -/
def pyGetattr : PyObj → String → Option PyObj
  | .obj fields, a => fields.lookup a
  | _, _ => none

/-- Python `s.split(sep)` for a one-character separator, on the character
list of `s`: `"".split(".") = [""]`, empty pieces kept. -/
def pySplitList (sep : Char) : List Char → List String
  | [] => [""]
  | c :: rest =>
    match pySplitList sep rest with
    | [] => []
    | h :: t => if c = sep then "" :: h :: t else ⟨c :: h.data⟩ :: t

/-- Python `s.split(sep)` for a one-character separator. -/
def pySplit (sep : Char) (s : String) : List String :=
  pySplitList sep s.data

/-- `isinstance(value, Enum)` followed by `value = value.value`
(sensor.py lines 154-155). -/
def unwrapEnum : PyObj → PyObj
  | .vEnum v => .vStr v
  | x => x

/-- `UnifiProtectSensor.native_value` (sensor.py lines 145-157): split the
entity description's `ufp_value` on dots, follow the attributes with
`getattr` starting from `self.device`, and unwrap an `Enum` result to its
`.value`.  `none` models an `AttributeError` escaping the property. -/
def native_value (device : PyObj) (ufp_value : String) : Option PyObj :=
  let attrs := pySplit '.' ufp_value
  (attrs.foldlM pyGetattr device).map unwrapEnum

/-- The `ufp_value` strings of `SENSOR_TYPES` (sensor.py lines 43-105), in
order: motion_recording, light_turn_on, battery_level, light_level,
humidity_level, temperature_level, ble_signal. -/
def SENSOR_TYPES_ufp_values : List String :=
  [ "recording_settings.mode"
  , "light_mode_settings.mode"
  , "battery_status"
  , "stats.light.value"
  , "stats.humidity.value"
  , "stats.temperature.value"
  , "bluetooth_connection_state.signal_strength" ]

/-! ### Structured SDK device models and their reflections

The SDK device objects behind the sensor descriptions, with exactly the
fields the component reads.  Enum-typed fields are kept as their member
value strings.
-/

structure RecordingSettings where
  mode : RecordingMode
  deriving DecidableEq, Repr

/-- SDK camera object as read by the `motion_recording` sensor. -/
structure SensorCameraDev where
  recording_settings : RecordingSettings
  deriving DecidableEq, Repr

structure LightModeSettings where
  mode : String
  enable_at : String
  deriving DecidableEq, Repr

/-- SDK light object as read by the `light_turn_on` sensor and by
`extra_state_attributes`; `mode` and `enable_at` are enum members kept as
their value strings. -/
structure LightDev where
  light_mode_settings : LightModeSettings
  deriving DecidableEq, Repr

structure StatValue where
  value : Int
  deriving DecidableEq, Repr

structure SensorStats where
  light : StatValue
  humidity : StatValue
  temperature : StatValue
  deriving DecidableEq, Repr

structure BluetoothConnectionState where
  signal_strength : Int
  deriving DecidableEq, Repr

/-- SDK sensor object as read by the battery/light/humidity/temperature/BLE
sensors. -/
structure SensorDev where
  battery_status : Int
  stats : SensorStats
  bluetooth_connection_state : BluetoothConnectionState
  deriving DecidableEq, Repr

def SensorCameraDev.toPyObj (c : SensorCameraDev) : PyObj :=
  .obj [("recording_settings", .obj [("mode", .vEnum c.recording_settings.mode.value)])]

def LightDev.toPyObj (l : LightDev) : PyObj :=
  .obj [("light_mode_settings",
         .obj [ ("mode", .vEnum l.light_mode_settings.mode)
              , ("enable_at", .vEnum l.light_mode_settings.enable_at)])]

def SensorDev.toPyObj (s : SensorDev) : PyObj :=
  .obj [ ("battery_status", .vInt s.battery_status)
       , ("stats", .obj [ ("light", .obj [("value", .vInt s.stats.light.value)])
                        , ("humidity", .obj [("value", .vInt s.stats.humidity.value)])
                        , ("temperature", .obj [("value", .vInt s.stats.temperature.value)])])
       , ("bluetooth_connection_state",
          .obj [("signal_strength", .vInt s.bluetooth_connection_state.signal_strength)]) ]

/-! ### `extra_state_attributes` of the sensor entity -/

/-- `ATTR_ENABLED_AT` from `const.py`. Modelled from the spec: `const.py` is
not part of the given sources; only the key's identity matters. -/
def ATTR_ENABLED_AT : String := "enabled_at"

/-- A device a `UnifiProtectSensor` can hold: `isinstance(self.device, Light)`
distinguishes the light case. -/
inductive ProtectDevice
  | camera (c : SensorCameraDev)
  | light (l : LightDev)
  | sensor (s : SensorDev)
  deriving DecidableEq, Repr

/-- Python `{**d, k: v}` on a dict kept as an association list: an existing
key is overwritten in place, a new key is appended. -/
def dictInsert (d : List (String × PyObj)) (k : String) (v : PyObj) :
    List (String × PyObj) :=
  if d.any (fun p => p.1 = k) then
    d.map (fun p => if p.1 = k then (k, v) else p)
  else d ++ [(k, v)]

/-- `UnifiProtectSensor.extra_state_attributes` (sensor.py lines 159-167):
for a `Light` device, the base-class attributes merged with
`ATTR_ENABLED_AT: self.device.light_mode_settings.enable_at.value`;
otherwise the base-class attributes unchanged.  `base` is the dict returned
by `super().extra_state_attributes`. -/
def sensor_extra_state_attributes (base : List (String × PyObj))
    (device : ProtectDevice) : List (String × PyObj) :=
  match device with
  | .light l => dictInsert base ATTR_ENABLED_AT (.vStr l.light_mode_settings.enable_at)
  | _ => base

/-! ## Camera entity state and update callback (camera.py) -/

/-- `pyunifiprotect.data.devices.CameraChannel`, with the fields camera.py
reads.  `rtsps_url` is `Optional`; Python truthiness of the URL decides
`supported_features`. -/
structure CameraChannel where
  id : Nat
  name : String
  is_rtsp_enabled : Bool
  rtsps_url : Option String
  deriving DecidableEq, Repr

/-- `pyunifiprotect.data.Camera`, with the fields camera.py reads. -/
structure UnifiCamera where
  id : String
  mac : String
  name : String
  channels : List CameraChannel
  is_connected : Bool
  deriving DecidableEq, Repr

/-- Python truthiness of an `Optional[str]`: `None` and `""` are falsy. -/
def pyTruthy : Option String → Bool
  | none => false
  | some s => s ≠ ""

/-- `homeassistant.components.camera.SUPPORT_STREAM`. -/
def SUPPORT_STREAM : Nat := 2

/-- The mutable attributes of a `UnifiProtectCamera` entity touched by
`_async_set_stream_source` and `_async_updated_event`. -/
structure CamState where
  device : UnifiCamera
  channel : CameraChannel
  disable_stream : Bool
  stream_source : Option String
  supported_features : Nat
  available : Bool
  deriving DecidableEq, Repr

/-- `UnifiProtectCamera._async_set_stream_source` (camera.py lines 185-192):
streaming is only disabled on an RTSP-enabled channel; `_stream_source` is
`None` if disabled, else the channel's `rtsps_url`; `supported_features` is
`SUPPORT_STREAM` iff the stream source is truthy. -/
def async_set_stream_source (s : CamState) : CamState :=
  let disable := if s.channel.is_rtsp_enabled then s.disable_stream else false
  let src : Option String := if disable then none else s.channel.rtsps_url
  { s with stream_source := src
         , supported_features := if pyTruthy src then SUPPORT_STREAM else 0 }

/-- The surroundings of the update callback: the coordinator's
`last_update_success` flag and the SDK bootstrap's camera dict
(`protect.bootstrap.cameras`, keyed by camera id). -/
structure UpdateEnv where
  bootstrap_cameras : List (String × UnifiCamera)
  last_update_success : Bool

/-- The channel-refresh loop of `_async_updated_event` (camera.py lines
198-201): `for channel in self.device.channels: if channel.id ==
self.channel.id: self.channel = channel; break` — adopt the first refreshed
channel whose id equals the current one, else keep the current channel. -/
def refreshChannel (dev : UnifiCamera) (s : CamState) : CamState :=
  match dev.channels.find? (fun ch => ch.id = s.channel.id) with
  | some ch => { s with channel := ch }
  | none => s

/-- `UnifiProtectCamera._async_updated_event` (camera.py lines 194-207): on a
successful update, re-read the device from `protect.bootstrap.cameras`
(`none` models the `KeyError` when the id is gone), adopt the refreshed
channel with the same id if present, and recompute the stream source; in
all cases set `_attr_available` to
`self.device.is_connected and self.protect_data.last_update_success`. -/
def async_updated_event (env : UpdateEnv) (s : CamState) : Option CamState :=
  if env.last_update_success then
    match env.bootstrap_cameras.lookup s.device.id with
    | none => none
    | some dev =>
      let s3 := async_set_stream_source (refreshChannel dev { s with device := dev })
      some { s3 with available := s3.device.is_connected && env.last_update_success }
  else
    some { s with available := s.device.is_connected && env.last_update_success }

/-! ## `get_camera_channels` (camera.py lines 66-79) -/

/-- The inner loop of `get_camera_channels` over one camera's channels,
carrying the running `is_default` flag: each RTSP-enabled channel is
yielded with the current flag, which then drops to `False`.  Returns the
yielded `(channel, is_default)` pairs and the final flag. -/
def yieldRtsp : List CameraChannel → Bool → List (CameraChannel × Bool) × Bool
  | [], d => ([], d)
  | ch :: rest, d =>
    if ch.is_rtsp_enabled then
      let r := yieldRtsp rest false
      ((ch, d) :: r.1, r.2)
    else yieldRtsp rest d

/-- The tuples `get_camera_channels` yields for one camera: the RTSP-enabled
channels with the `is_default` flag, then — when none was RTSP-enabled —
the fallback `(camera.channels[0], True)`; `none` models the `IndexError`
of `camera.channels[0]` on an empty channel list. -/
def get_camera_channels_one (camera : UnifiCamera) :
    Option (List (CameraChannel × Bool)) :=
  let r := yieldRtsp camera.channels true
  if r.2 then
    match camera.channels with
    | [] => none
    | ch0 :: _ => some (r.1 ++ [(ch0, true)])
  else
    some r.1

/-- `get_camera_channels` over the whole bootstrap: the per-camera tuples
concatenated in camera order, `none` as soon as one camera raises. -/
def get_camera_channels (cameras : List UnifiCamera) :
    Option (List (UnifiCamera × CameraChannel × Bool)) :=
  match cameras with
  | [] => some []
  | c :: rest => do
    let l ← get_camera_channels_one c
    let r ← get_camera_channels rest
    pure (l.map (fun p => (c, p.1, p.2)) ++ r)

/-! ## Concrete device behaviours used by the witnesses -/

/-- An SDK device on which every setter succeeds. -/
def devOk : DevBehavior := fun _ => .ok ()

/-- An SDK device on which every setter raises exception `7`. -/
def devErr : DevBehavior := fun _ => .error 7

/-! ## Claims about the service handlers -/

/-- Claim C1: for every string `recording_mode` that is a valid member value
of the SDK's `RecordingMode` enum, `async_set_recording_mode` makes exactly
one SDK call, namely `set_recording_mode (RecordingMode recording_mode)`,
and performs no other SDK mutation (the call trace is that singleton,
whatever the device behaviour). -/
theorem C1_set_recording_mode_single_call (dev : DevBehavior)
    (recording_mode : String) (m : RecordingMode)
    (h : RecordingMode.ofString recording_mode = some m) :
    (async_set_recording_mode dev recording_mode).1
      = [SDKCall.set_recording_mode m] := by
  simp [async_set_recording_mode, h, callSetter]

theorem C1_witness :
    RecordingMode.ofString "always" = some RecordingMode.ALWAYS ∧
    (async_set_recording_mode devOk "always").1
      = [SDKCall.set_recording_mode RecordingMode.ALWAYS] :=
  ⟨rfl, C1_set_recording_mode_single_call devOk "always" RecordingMode.ALWAYS rfl⟩

/-- Claim C2: every registered camera service handler forwards its platform
service-call arguments to exactly one SDK setter: the call trace of each of
the eleven handlers is the singleton of the corresponding setter call, with
the arguments passed through (enum-valued string arguments through the enum
constructor, the high-FPS flag through the `VideoMode` choice, the doorbell
duration through the numeric-duration reset time — conditional on `int()`
accepting the duration when `isnumeric()` holds, since a numeric but
non-decimal duration makes `int()` raise before the setter is reached). -/
theorem C2_handlers_forward_one_setter (u : UnicodeData) (dev : DevBehavior)
    (now : Int) (b pb : Bool) (n ml : Int) (msg dur rm im : String)
    (mrec : RecordingMode) (mir : IRLEDMode)
    (hrec : RecordingMode.ofString rm = some mrec)
    (hir : IRLEDMode.ofString im = some mir) :
    (async_set_recording_mode dev rm).1 = [SDKCall.set_recording_mode mrec]
  ∧ (async_set_ir_mode dev im).1 = [SDKCall.set_ir_led_model mir]
  ∧ (async_set_status_light dev b).1 = [SDKCall.set_status_light b]
  ∧ (async_set_hdr_mode dev b).1 = [SDKCall.set_hdr b]
  ∧ (async_set_highfps_video_mode dev b).1
      = [SDKCall.set_video_mode (if b then VideoMode.HIGH_FPS else VideoMode.DEFAULT)]
  ∧ (pyIsNumeric u dur = false →
       (async_set_doorbell_lcd_message u dev now msg dur).1
         = [SDKCall.set_lcd_text DoorbellMessageType.CUSTOM_MESSAGE msg none])
  ∧ (∀ k, pyIsNumeric u dur = true → pyIntOfString u dur = some k →
       (async_set_doorbell_lcd_message u dev now msg dur).1
         = [SDKCall.set_lcd_text DoorbellMessageType.CUSTOM_MESSAGE msg
             (some (now + 60 * (k : Int)))])
  ∧ (async_set_mic_volume dev n).1 = [SDKCall.set_mic_volume n]
  ∧ (async_set_privacy_mode dev pb ml rm).1 = [SDKCall.set_privacy pb ml mrec]
  ∧ (async_set_zoom_position dev n).1 = [SDKCall.set_camera_zoom n]
  ∧ (async_set_wdr_value dev n).1 = [SDKCall.set_wdr_level n]
  ∧ (async_set_doorbell_chime_duration dev n).1 = [SDKCall.set_chime_duration n] := by
  refine ⟨?_, ?_, rfl, rfl, rfl, ?_, ?_, rfl, ?_, rfl, rfl, rfl⟩
  · simp [async_set_recording_mode, hrec, callSetter]
  · simp [async_set_ir_mode, hir, callSetter]
  · intro hdur
    simp [async_set_doorbell_lcd_message, hdur, callSetter]
  · intro k h1 h2
    simp [async_set_doorbell_lcd_message, h1, h2, callSetter]
  · simp [async_set_privacy_mode, hrec, callSetter]

theorem C2_witness :
    (async_set_recording_mode devOk "never").1
      = [SDKCall.set_recording_mode RecordingMode.NEVER]
  ∧ (async_set_ir_mode devOk "auto").1
      = [SDKCall.set_ir_led_model IRLEDMode.AUTO]
  ∧ (async_set_doorbell_lcd_message asciiU devOk 1000 "hello" "5").1
      = [SDKCall.set_lcd_text DoorbellMessageType.CUSTOM_MESSAGE "hello"
          (some (1000 + 60 * (5 : Int)))]
  ∧ (async_set_doorbell_lcd_message asciiU devOk 1000 "hi" "later").1
      = [SDKCall.set_lcd_text DoorbellMessageType.CUSTOM_MESSAGE "hi" none] := by
  have h := C2_handlers_forward_one_setter asciiU devOk 1000 true false 3 4
    "hello" "5" "never" "auto" RecordingMode.NEVER IRLEDMode.AUTO rfl rfl
  have h' := C2_handlers_forward_one_setter asciiU devOk 1000 true false 3 4
    "hi" "later" "never" "auto" RecordingMode.NEVER IRLEDMode.AUTO rfl rfl
  exact ⟨h.1, h.2.1, h.2.2.2.2.2.2.1 5 rfl rfl, h'.2.2.2.2.2.1 rfl⟩

/-- Claim C3: the handlers add no error handling: an invalid enum-member
string makes the enum constructor's `ValueError` escape before any SDK
setter is called (empty call trace), and an exception raised by an SDK
setter propagates to the caller unchanged, the setter having been attempted
exactly once (no retry or recovery). -/
theorem C3_no_error_handling (dev : DevBehavior) (rm im : String)
    (pb : Bool) (ml : Int)
    (hrm : RecordingMode.ofString rm = none)
    (him : IRLEDMode.ofString im = none) :
    async_set_recording_mode dev rm
      = ([], .error (.valueError "RecordingMode" rm))
  ∧ async_set_ir_mode dev im
      = ([], .error (.valueError "IRLEDMode" im))
  ∧ async_set_privacy_mode dev pb ml rm
      = ([], .error (.valueError "RecordingMode" rm))
  ∧ (∀ c e, dev c = .error e →
       callSetter dev c = ([c], .error (.sdkError e))) := by
  refine ⟨?_, ?_, ?_, ?_⟩
  · simp [async_set_recording_mode, hrm]
  · simp [async_set_ir_mode, him]
  · simp [async_set_privacy_mode, hrm]
  · intro c e hc
    simp [callSetter, hc]

theorem C3_witness :
    async_set_recording_mode devErr "bogus"
      = ([], .error (.valueError "RecordingMode" "bogus"))
  ∧ callSetter devErr (SDKCall.set_hdr true)
      = ([SDKCall.set_hdr true], .error (.sdkError 7)) := by
  have h := C3_no_error_handling devErr "bogus" "bogus" true 0 rfl rfl
  exact ⟨h.1, h.2.2.2 (SDKCall.set_hdr true) 7 rfl⟩

/-- Claim C5: `async_set_highfps_video_mode` calls `set_video_mode` exactly
once, with `VideoMode.HIGH_FPS` when `high_fps_on` is true and
`VideoMode.DEFAULT` when it is false. -/
theorem C5_highfps_video_mode (dev : DevBehavior) (high_fps_on : Bool) :
    (async_set_highfps_video_mode dev high_fps_on).1
      = [SDKCall.set_video_mode
          (if high_fps_on then VideoMode.HIGH_FPS else VideoMode.DEFAULT)]
  ∧ (async_set_highfps_video_mode dev high_fps_on).1.length = 1 :=
  ⟨rfl, rfl⟩

/-! ## Claims about the sensor entity -/

/-- Claim C4: for every sensor entity, `native_value` equals the SDK device
field reached by following the dot-separated attribute path in the entity
description's `ufp_value`, with an Enum-typed result unwrapped to its
`.value`: one conjunct per entry of `SENSOR_TYPES`, each relating the
dynamic `getattr` walk over the reflected device object to the static
nested field of the structured device. The read is a pure function of the
device. -/
theorem C4_native_value_follows_ufp_value (cam : SensorCameraDev)
    (light : LightDev) (sens : SensorDev) :
    native_value cam.toPyObj "recording_settings.mode"
      = some (.vStr cam.recording_settings.mode.value)
  ∧ native_value light.toPyObj "light_mode_settings.mode"
      = some (.vStr light.light_mode_settings.mode)
  ∧ native_value sens.toPyObj "battery_status"
      = some (.vInt sens.battery_status)
  ∧ native_value sens.toPyObj "stats.light.value"
      = some (.vInt sens.stats.light.value)
  ∧ native_value sens.toPyObj "stats.humidity.value"
      = some (.vInt sens.stats.humidity.value)
  ∧ native_value sens.toPyObj "stats.temperature.value"
      = some (.vInt sens.stats.temperature.value)
  ∧ native_value sens.toPyObj "bluetooth_connection_state.signal_strength"
      = some (.vInt sens.bluetooth_connection_state.signal_strength)
  ∧ SENSOR_TYPES_ufp_values
      = [ "recording_settings.mode", "light_mode_settings.mode",
          "battery_status", "stats.light.value", "stats.humidity.value",
          "stats.temperature.value",
          "bluetooth_connection_state.signal_strength" ] :=
  ⟨rfl, rfl, rfl, rfl, rfl, rfl, rfl, rfl⟩

/-- Claim C7: `extra_state_attributes` of the sensor reads SDK fields only:
for a `Light` device it is the base-class attribute dict extended with
exactly one extra key, `ATTR_ENABLED_AT` mapped to
`light_mode_settings.enable_at.value` (under the hypothesis that the base
dict does not already contain that key); for a non-`Light` device it is the
base dict unchanged.  The device is an input only, never modified. -/
theorem C7_sensor_extra_state_attributes (base : List (String × PyObj))
    (l : LightDev) (c : SensorCameraDev) (sd : SensorDev)
    (h : ATTR_ENABLED_AT ∉ base.map Prod.fst) :
    sensor_extra_state_attributes base (.light l)
      = base ++ [(ATTR_ENABLED_AT, .vStr l.light_mode_settings.enable_at)]
  ∧ (sensor_extra_state_attributes base (.light l)).map Prod.fst
      = base.map Prod.fst ++ [ATTR_ENABLED_AT]
  ∧ sensor_extra_state_attributes base (.camera c) = base
  ∧ sensor_extra_state_attributes base (.sensor sd) = base := by
  have hany : base.any (fun p => p.1 = ATTR_ENABLED_AT) = false := by
    rw [List.any_eq_false]
    intro p hp
    simp only [decide_eq_true_eq]
    intro hk
    exact h (List.mem_map.mpr ⟨p, hp, hk⟩)
  have h1 : sensor_extra_state_attributes base (.light l)
      = base ++ [(ATTR_ENABLED_AT, .vStr l.light_mode_settings.enable_at)] := by
    simp [sensor_extra_state_attributes, dictInsert, hany]
  refine ⟨h1, ?_, rfl, rfl⟩
  rw [h1, List.map_append]
  rfl

theorem C7_witness :
    sensor_extra_state_attributes [("camera_id", PyObj.vStr "c1")]
        (.light ⟨⟨"motion", "dark"⟩⟩)
      = [("camera_id", PyObj.vStr "c1"), (ATTR_ENABLED_AT, PyObj.vStr "dark")]
  ∧ sensor_extra_state_attributes [("camera_id", PyObj.vStr "c1")]
        (.sensor ⟨50, ⟨⟨1⟩, ⟨2⟩, ⟨3⟩⟩, ⟨-40⟩⟩)
      = [("camera_id", PyObj.vStr "c1")] := by
  have h := C7_sensor_extra_state_attributes [("camera_id", PyObj.vStr "c1")]
    ⟨⟨"motion", "dark"⟩⟩ ⟨⟨RecordingMode.ALWAYS⟩⟩ ⟨50, ⟨⟨1⟩, ⟨2⟩, ⟨3⟩⟩, ⟨-40⟩⟩
    (by simp [ATTR_ENABLED_AT])
  exact ⟨h.1, h.2.2.2⟩

/-! ## Claims about the update callback -/

/-- A concrete camera entity state for the witnesses. -/
def chan1 : CameraChannel :=
  { id := 0, name := "High", is_rtsp_enabled := true, rtsps_url := some "rtsps://u1" }

/-- A second concrete channel, RTSP disabled. -/
def chan2 : CameraChannel :=
  { id := 1, name := "Low", is_rtsp_enabled := false, rtsps_url := none }

/-- A concrete SDK camera for the witnesses. -/
def cam1 : UnifiCamera :=
  { id := "cid1", mac := "aa:bb", name := "Front", channels := [chan1, chan2],
    is_connected := true }

/-- `cam1` as refreshed by a later bootstrap: disconnected, same channels. -/
def cam1b : UnifiCamera :=
  { id := "cid1", mac := "aa:bb", name := "Front", channels := [chan1, chan2],
    is_connected := false }

/-- A concrete entity state holding `cam1` and its first channel. -/
def camState1 : CamState :=
  { device := cam1, channel := chan1, disable_stream := false,
    stream_source := some "rtsps://u1", supported_features := SUPPORT_STREAM,
    available := true }

theorem async_set_stream_source_device (s : CamState) :
    (async_set_stream_source s).device = s.device := rfl

theorem async_set_stream_source_channel (s : CamState) :
    (async_set_stream_source s).channel = s.channel := rfl

theorem refreshChannel_device (dev : UnifiCamera) (s : CamState) :
    (refreshChannel dev s).device = s.device := by
  unfold refreshChannel
  split <;> rfl

theorem refreshChannel_channel_id (dev : UnifiCamera) (s : CamState) :
    (refreshChannel dev s).channel.id = s.channel.id := by
  unfold refreshChannel
  split
  · next ch hf =>
    show ch.id = s.channel.id
    have hb := List.find?_some
      (p := fun c : CameraChannel => decide (c.id = s.channel.id)) hf
    simpa using hb
  · rfl

/-- Claim C6: after every invocation of `_async_updated_event` that returns
(no `KeyError`), the entity's availability equals the conjunction of the
(possibly refreshed) device's `is_connected` and the coordinator's
`last_update_success`; the device is re-read from the bootstrap exactly
when the update succeeded, and is left untouched (as is the channel) when
it failed. -/
theorem C6_updated_event_availability (env : UpdateEnv) (s s' : CamState)
    (h : async_updated_event env s = some s') :
    s'.available = (s'.device.is_connected && env.last_update_success)
  ∧ (env.last_update_success = false →
       s'.device = s.device ∧ s'.channel = s.channel)
  ∧ (env.last_update_success = true →
       env.bootstrap_cameras.lookup s.device.id = some s'.device) := by
  by_cases hu : env.last_update_success = true
  · simp only [async_updated_event, hu, if_true] at h
    cases hl : env.bootstrap_cameras.lookup s.device.id with
    | none => rw [hl] at h; exact absurd h (by simp)
    | some dev =>
      rw [hl] at h
      simp only [Option.some.injEq] at h
      subst h
      refine ⟨?_, ?_, ?_⟩
      · rw [hu]
      · intro hfalse; rw [hu] at hfalse; cases hfalse
      · intro _
        show some dev
          = some (async_set_stream_source
              (refreshChannel dev { s with device := dev })).device
        rw [async_set_stream_source_device, refreshChannel_device]
  · have hu' : env.last_update_success = false := by
      cases henv : env.last_update_success
      · rfl
      · exact absurd henv hu
    simp only [async_updated_event, hu', Bool.false_eq_true, if_false,
      Option.some.injEq] at h
    subst h
    exact ⟨by rw [hu'], fun _ => ⟨rfl, rfl⟩,
      fun htrue => absurd htrue (by rw [hu']; exact Bool.false_ne_true)⟩

theorem C6_witness :
    async_updated_event
        { bootstrap_cameras := [("cid1", cam1b)], last_update_success := true }
        camState1
      = some { camState1 with device := cam1b, available := false }
  ∧ (some { camState1 with device := cam1b, available := false }
       : Option CamState) = some { camState1 with device := cam1b, available := false }
  ∧ ({ camState1 with device := cam1b, available := false } : CamState).available
      = (({ camState1 with device := cam1b, available := false } : CamState).device.is_connected
          && true) := by
  have h := C6_updated_event_availability
    { bootstrap_cameras := [("cid1", cam1b)], last_update_success := true }
    camState1 { camState1 with device := cam1b, available := false }
    (by decide)
  exact ⟨by decide, rfl, h.1⟩

/-- Claim C10: every completed invocation of `_async_updated_event`
preserves the entity's channel identity: the channel is replaced only by a
refreshed channel with the same id, so `self.channel.id` afterwards equals
its value before (and the unique id computed from it at construction stays
valid). -/
theorem C10_updated_event_preserves_channel_id (env : UpdateEnv)
    (s s' : CamState) (h : async_updated_event env s = some s') :
    s'.channel.id = s.channel.id := by
  by_cases hu : env.last_update_success = true
  · simp only [async_updated_event, hu, if_true] at h
    cases hl : env.bootstrap_cameras.lookup s.device.id with
    | none => rw [hl] at h; exact absurd h (by simp)
    | some dev =>
      rw [hl] at h
      simp only [Option.some.injEq] at h
      subst h
      show (async_set_stream_source
          (refreshChannel dev { s with device := dev })).channel.id
        = s.channel.id
      rw [async_set_stream_source_channel]
      exact refreshChannel_channel_id dev { s with device := dev }
  · have hu' : env.last_update_success = false := by
      cases henv : env.last_update_success
      · rfl
      · exact absurd henv hu
    simp only [async_updated_event, hu', Bool.false_eq_true, if_false,
      Option.some.injEq] at h
    subst h
    rfl

theorem C10_witness :
    (∃ s', async_updated_event
        { bootstrap_cameras := [("cid1", cam1b)], last_update_success := true }
        camState1 = some s' ∧ s'.channel.id = camState1.channel.id) :=
  ⟨{ camState1 with device := cam1b, available := false },
    by decide,
    C10_updated_event_preserves_channel_id
      { bootstrap_cameras := [("cid1", cam1b)], last_update_success := true }
      camState1 { camState1 with device := cam1b, available := false } (by decide)⟩

/-! ## Claims about `get_camera_channels` -/

theorem yieldRtsp_snd (l : List CameraChannel) (d : Bool) :
    (yieldRtsp l d).2 = (d && !(l.any fun c => c.is_rtsp_enabled)) := by
  induction l generalizing d with
  | nil => simp [yieldRtsp]
  | cons ch rest ih =>
    by_cases hc : ch.is_rtsp_enabled = true
    · simp [yieldRtsp, hc, ih]
    · simp [yieldRtsp, hc, ih, Bool.not_eq_true _ ▸ hc]

theorem yieldRtsp_map_fst (l : List CameraChannel) (d : Bool) :
    ((yieldRtsp l d).1).map Prod.fst = l.filter (fun c => c.is_rtsp_enabled) := by
  induction l generalizing d with
  | nil => simp [yieldRtsp]
  | cons ch rest ih =>
    by_cases hc : ch.is_rtsp_enabled = true
    · simp [yieldRtsp, hc, ih]
    · simp [yieldRtsp, hc, ih]

theorem yieldRtsp_false_flags (l : List CameraChannel) :
    ∀ p ∈ (yieldRtsp l false).1, p.2 = false := by
  induction l with
  | nil => simp [yieldRtsp]
  | cons ch rest ih =>
    intro p hp
    by_cases hc : ch.is_rtsp_enabled = true
    · simp only [yieldRtsp, hc, if_true] at hp
      rcases List.mem_cons.mp hp with h1 | h2
      · rw [h1]
      · exact ih p h2
    · simp only [yieldRtsp, hc, if_false] at hp
      exact ih p hp

theorem yieldRtsp_true_shape (l : List CameraChannel)
    (h : l.any (fun c => c.is_rtsp_enabled) = true) :
    ∃ ch rest, (yieldRtsp l true).1 = (ch, true) :: rest
      ∧ ∀ p ∈ rest, p.2 = false := by
  induction l with
  | nil => simp at h
  | cons c0 rest ih =>
    by_cases hc : c0.is_rtsp_enabled = true
    · exact ⟨c0, (yieldRtsp rest false).1, by simp [yieldRtsp, hc],
        yieldRtsp_false_flags rest⟩
    · have h' : rest.any (fun c => c.is_rtsp_enabled) = true := by
        simpa [hc] using h
      obtain ⟨ch, r, hr, hf⟩ := ih h'
      exact ⟨ch, r, by simp [yieldRtsp, hc, hr], hf⟩

theorem yieldRtsp_no_rtsp (l : List CameraChannel) (d : Bool)
    (h : l.any (fun c => c.is_rtsp_enabled) = false) :
    (yieldRtsp l d).1 = [] := by
  induction l generalizing d with
  | nil => simp [yieldRtsp]
  | cons c0 rest ih =>
    rw [List.any_cons, Bool.or_eq_false_iff] at h
    have := ih d h.2
    simp [yieldRtsp, h.1, this]

/-- Characterization of the per-camera tuples: some RTSP-enabled channel
present means the inner loop's output, none means the fallback on the first
channel (`none` on an empty channel list). -/
theorem get_camera_channels_one_eq (camera : UnifiCamera) :
    get_camera_channels_one camera =
      if camera.channels.any (fun c => c.is_rtsp_enabled) then
        some (yieldRtsp camera.channels true).1
      else
        match camera.channels with
        | [] => none
        | c0 :: _ => some [(c0, true)] := by
  unfold get_camera_channels_one
  have h2 := yieldRtsp_snd camera.channels true
  cases hany : camera.channels.any (fun c => c.is_rtsp_enabled) with
  | true =>
    rw [hany] at h2
    simp only [Bool.not_true, Bool.and_false] at h2
    simp [h2, hany]
  | false =>
    rw [hany] at h2
    simp only [Bool.not_false, Bool.and_true] at h2
    have h1 := yieldRtsp_no_rtsp camera.channels true hany
    simp only [h2, if_true, h1, List.nil_append]
    cases camera.channels <;> simp

/-- Claim C8: `get_camera_channels` is safe exactly under the precondition
that every camera has a non-empty channel list: with an empty channel list
(hence no RTSP-enabled channel) the fallback `camera.channels[0]` is an
out-of-bounds access (`none`), and with a non-empty list the access is in
bounds and the generator yields at least one tuple for the camera. -/
theorem C8_channels_nonempty_safety (camera : UnifiCamera) :
    (camera.channels = [] → get_camera_channels_one camera = none)
  ∧ (camera.channels ≠ [] →
       ∃ l, get_camera_channels_one camera = some l ∧ l ≠ []) := by
  constructor
  · intro hc
    rw [get_camera_channels_one_eq, hc]
    simp
  · intro hc
    rw [get_camera_channels_one_eq]
    cases hany : camera.channels.any (fun c => c.is_rtsp_enabled) with
    | true =>
      refine ⟨(yieldRtsp camera.channels true).1, by simp, ?_⟩
      intro hnil
      have hm := yieldRtsp_map_fst camera.channels true
      rw [hnil, List.map_nil] at hm
      have hfil : camera.channels.filter (fun c => c.is_rtsp_enabled) = [] :=
        hm.symm
      rw [List.filter_eq_nil_iff] at hfil
      obtain ⟨x, hx, hpx⟩ := List.any_eq_true.mp hany
      exact hfil x hx hpx
    | false =>
      cases hcl : camera.channels with
      | nil => exact absurd hcl hc
      | cons c0 cs => exact ⟨[(c0, true)], by simp, by simp⟩

/-- A camera with a single, RTSP-enabled channel. -/
def camOne : UnifiCamera :=
  { id := "cid2", mac := "cc:dd", name := "Side", channels := [chan1],
    is_connected := true }

/-- A camera with an empty channel list. -/
def camEmpty : UnifiCamera :=
  { id := "cid3", mac := "ee:ff", name := "Bad", channels := [],
    is_connected := true }

theorem C8_witness :
    get_camera_channels_one camEmpty = none
  ∧ ∃ l, get_camera_channels_one camOne = some l ∧ l ≠ [] :=
  ⟨(C8_channels_nonempty_safety camEmpty).1 rfl,
   (C8_channels_nonempty_safety camOne).2 (by simp [camOne])⟩

/-- Claim C9: for every camera with at least one channel, the per-camera
tuples have exactly one `is_default = true` entry and it is the first one
yielded; when some channel is RTSP-enabled, the yielded channels are
exactly the RTSP-enabled channels in the order of `camera.channels`, and
when none is, the single yielded tuple carries the first channel. -/
theorem C9_default_first_and_order (camera : UnifiCamera)
    (h : camera.channels ≠ []) :
    ∃ ch rest,
      get_camera_channels_one camera = some ((ch, true) :: rest)
    ∧ (∀ p ∈ rest, p.2 = false)
    ∧ (camera.channels.any (fun c => c.is_rtsp_enabled) = true →
         ((ch, true) :: rest).map Prod.fst
           = camera.channels.filter (fun c => c.is_rtsp_enabled))
    ∧ (camera.channels.any (fun c => c.is_rtsp_enabled) = false →
         rest = [] ∧ camera.channels.head? = some ch) := by
  cases hany : camera.channels.any (fun c => c.is_rtsp_enabled) with
  | true =>
    obtain ⟨ch, rest, hshape, hflags⟩ := yieldRtsp_true_shape camera.channels hany
    refine ⟨ch, rest, ?_, hflags, ?_, ?_⟩
    · rw [get_camera_channels_one_eq, hany, if_pos rfl, hshape]
    · intro _
      rw [← hshape]
      exact yieldRtsp_map_fst camera.channels true
    · intro hfalse
      simp at hfalse
  | false =>
    cases hcl : camera.channels with
    | nil => exact absurd hcl h
    | cons c0 cs =>
      refine ⟨c0, [], ?_, by simp, ?_, ?_⟩
      · rw [get_camera_channels_one_eq, hany]
        simp [hcl]
      · intro htrue
        simp at htrue
      · intro _
        exact ⟨rfl, rfl⟩

theorem C9_witness :
    ∃ ch rest,
      get_camera_channels_one camOne = some ((ch, true) :: rest)
    ∧ (∀ p ∈ rest, p.2 = false)
    ∧ (camOne.channels.any (fun c => c.is_rtsp_enabled) = true →
         ((ch, true) :: rest).map Prod.fst
           = camOne.channels.filter (fun c => c.is_rtsp_enabled))
    ∧ (camOne.channels.any (fun c => c.is_rtsp_enabled) = false →
         rest = [] ∧ camOne.channels.head? = some ch) :=
  C9_default_first_and_order camOne (by simp [camOne])

end UnifiProtect
